import Mathlib

/-!
# Magnum: image converter contract, WAV size check and cube primitives

A shallow embedding of

* `src/Magnum/Trade/AbstractImageConverter.cpp` (the capability-gated export
  operations and their default hooks),
* `Audio::WavImporter::openData`, whose diagnostics `WavImporterTest.cpp`
  pins down,
* the vertex and index tables of `src/Magnum/Primitives/Cube.cpp`.

Conventions of the embedding:

* The global error stream and the filesystem are explicit state.
* `CORRADE_ASSERT(cond, message, value)` is the graceful assertion: when
  `cond` is false it prints `message` as one line and returns `value`.
* `Error() << a << b` prints its arguments separated by one space as one line.
* `Containers::Array<char>` is `Option (List Nat)`; `none` is the null array
  (`nullptr`), the only array for which `!data` is true.
* The coordinates of the cube tables are the float literals `-1.0f`, `0.0f`
  and `1.0f`; they are integers and are embedded in `Int`.
-/

namespace Magnum

/-! ## Environment: filesystem and error stream -/

/-- A filesystem: the files with their contents (the first entry for a name is
the current one) and the names that cannot be written. -/
structure FileSystem where
  files : List (String × List Nat)
  unwritable : List String
  deriving DecidableEq, Repr

/-- The contents of a file, `none` when it does not exist. -/
def FileSystem.read (fs : FileSystem) (filename : String) : Option (List Nat) :=
  (fs.files.find? (fun e => e.1 == filename)).map (fun e => e.2)

/-- Model of `Utility::Directory::write(filename, data)`: on success the file
holds exactly `data`; a failed write leaves the filesystem as it was. -/
def Directory.write (fs : FileSystem) (filename : String) (data : List Nat) :
    Bool × FileSystem :=
  if filename ∈ fs.unwritable then (false, fs)
  else (true, { fs with files := (filename, data) :: fs.files })

/-- The line `Error() << a << b << ...` prints: the arguments separated by a
space (the terminating newline is implied by the line structure). -/
def Error.line : List String → String
  | [] => ""
  | [a] => a
  | a :: b :: rest => a ++ " " ++ Error.line (b :: rest)

namespace Trade

/-- The three virtual hooks of `AbstractImageConverter`. -/
inductive Hook where
  | doExportToImage
  | doExportToData
  | doExportToFile
  deriving DecidableEq, Repr

/-- What happens during a call, in order. -/
inductive Event where
  /-- A line printed to the error stream by `AbstractImageConverter` itself. -/
  | error (line : String)
  /-- An overriding hook of the concrete plugin was entered. -/
  | hook (h : Hook)
  /-- A line printed to the error stream by an overriding hook. -/
  | pluginError (line : String)
  /-- `AbstractImageConverter` called `Utility::Directory::write`. -/
  | write (filename : String) (data : List Nat) (ok : Bool)
  deriving DecidableEq, Repr

/-- The state the export operations act on. -/
structure World where
  fs : FileSystem
  trace : List Event
  deriving DecidableEq, Repr

/-- The lines on the error stream, oldest first. -/
def errorLines : List Event → List String
  | [] => []
  | Event.error l :: es => l :: errorLines es
  | Event.pluginError l :: es => l :: errorLines es
  | _ :: es => errorLines es

/-- The hooks of the concrete plugin that were entered, oldest first. -/
def hookCalls : List Event → List Hook
  | [] => []
  | Event.hook h :: es => h :: hookCalls es
  | _ :: es => hookCalls es

/-- The `Utility::Directory::write` calls made by `AbstractImageConverter`. -/
def writeCalls : List Event → List (String × List Nat)
  | [] => []
  | Event.write f d _ :: es => (f, d) :: writeCalls es
  | _ :: es => writeCalls es

/-- The lines `AbstractImageConverter` itself printed (those of overriding
hooks left out), oldest first. -/
def ownLines : List Event → List String
  | [] => []
  | Event.error l :: es => l :: ownLines es
  | _ :: es => ownLines es

/-- The diagnostic form `Trade::AbstractImageConverter::<operation>(): <message>`
for a given operation name. -/
def hasForm (operation line : String) : Bool :=
  ("Trade::AbstractImageConverter::" ++ operation ++ "(): ").data.isPrefixOf line.data

/-- The values of `Feature::ConvertImage` and `Feature::ConvertData`; the
enumeration is declared in `AbstractImageConverter.h`, which is not among the
sources, so the two masks are parameters. -/
structure Feature where
  ConvertImage : Nat
  ConvertData : Nat
  deriving DecidableEq, Repr

/-- What an overriding hook does: its return value, the filesystem it leaves
and the lines it prints. -/
structure HookOutcome (R : Type) where
  result : R
  fs : FileSystem
  lines : List String

/-- A concrete plugin: `features()` and, for every virtual hook, its override
(`none` when the plugin inherits the default of `AbstractImageConverter`).
`ImageReference2D` and `Image2D` are declared outside the sources and are type
parameters. -/
structure Plugin (ImageReference2D Image2D : Type) where
  features : Nat
  doExportToImage :
    Option (ImageReference2D → FileSystem → HookOutcome (Option Image2D))
  doExportToData :
    Option (ImageReference2D → FileSystem → HookOutcome (Option (List Nat)))
  doExportToFile :
    Option (ImageReference2D → String → FileSystem → HookOutcome Bool)

variable {ImageReference2D Image2D : Type}

/-- Print one line from `AbstractImageConverter`. -/
def emit (w : World) (line : String) : World :=
  { w with trace := w.trace ++ [Event.error line] }

/-- Virtual dispatch into an overriding hook. -/
def runHook {R : Type} (h : Hook) (body : FileSystem → HookOutcome R) (w : World) :
    R × World :=
  let o := body w.fs
  (o.result,
    { fs := o.fs, trace := w.trace ++ Event.hook h :: o.lines.map Event.pluginError })

/-- `AbstractImageConverter::doExportToImage`, dispatched virtually. -/
def doExportToImage (p : Plugin ImageReference2D Image2D) (image : ImageReference2D)
    (w : World) : Option Image2D × World :=
  match p.doExportToImage with
  | some f => runHook Hook.doExportToImage (f image) w
  | none =>
    (none, emit w
      "Trade::AbstractImageConverter::exportToImage(): feature advertised but not implemented")

/-- `AbstractImageConverter::exportToImage`. -/
def exportToImage (F : Feature) (p : Plugin ImageReference2D Image2D)
    (image : ImageReference2D) (w : World) : Option Image2D × World :=
  if p.features &&& F.ConvertImage ≠ 0 then doExportToImage p image w
  else (none, emit w "Trade::AbstractImageConverter::exportToImage(): feature not supported")

/-- `AbstractImageConverter::doExportToData`, dispatched virtually. -/
def doExportToData (p : Plugin ImageReference2D Image2D) (image : ImageReference2D)
    (w : World) : Option (List Nat) × World :=
  match p.doExportToData with
  | some f => runHook Hook.doExportToData (f image) w
  | none =>
    (none, emit w
      "Trade::AbstractImageConverter::exportToData(): feature advertised but not implemented")

/-- `AbstractImageConverter::exportToData`. -/
def exportToData (F : Feature) (p : Plugin ImageReference2D Image2D)
    (image : ImageReference2D) (w : World) : Option (List Nat) × World :=
  if p.features &&& F.ConvertData ≠ 0 then doExportToData p image w
  else (none, emit w "Trade::AbstractImageConverter::exportToData(): feature not supported")

/-- `AbstractImageConverter::doExportToFile`, dispatched virtually; the second
branch is the default implementation. -/
def doExportToFile (F : Feature) (p : Plugin ImageReference2D Image2D)
    (image : ImageReference2D) (filename : String) (w : World) : Bool × World :=
  match p.doExportToFile with
  | some f => runHook Hook.doExportToFile (f image filename) w
  | none =>
    if p.features &&& F.ConvertData ≠ 0 then
      match doExportToData p image w with
      | (none, w1) => (false, w1)
      | (some data, w1) =>
        match Directory.write w1.fs filename data with
        | (false, fs2) =>
          (false, emit { fs := fs2, trace := w1.trace ++ [Event.write filename data false] }
            (Error.line
              ["Trade::AbstractImageConverter::exportToFile(): cannot write to file", filename]))
        | (true, fs2) =>
          (true, { fs := fs2, trace := w1.trace ++ [Event.write filename data true] })
    else (false, emit w "Trade::AbstractImageConverter::exportToFile(): not implemented")

/-- `AbstractImageConverter::exportToFile`. -/
def exportToFile (F : Feature) (p : Plugin ImageReference2D Image2D)
    (image : ImageReference2D) (filename : String) (w : World) : Bool × World :=
  doExportToFile F p image filename w

/-! ### Concrete plugins and states for the examples -/

/-- Mask values for the concrete examples. -/
def exampleFeature : Feature := { ConvertImage := 1, ConvertData := 2 }

/-- An empty, writable filesystem and an empty trace. -/
def emptyWorld : World := { fs := { files := [], unwritable := [] }, trace := [] }

/-- A filesystem in which `out.bin` cannot be written. -/
def readOnlyWorld : World := { fs := { files := [], unwritable := ["out.bin"] }, trace := [] }

/-- A plugin with no capability and no override. -/
def barePlugin : Plugin Unit Unit :=
  { features := 0, doExportToImage := none, doExportToData := none, doExportToFile := none }

/-- A plugin with an empty capability set that overrides `doExportToFile` and
writes three bytes itself. -/
def fileOnlyPlugin : Plugin Unit Unit :=
  { features := 0
    doExportToImage := none
    doExportToData := none
    doExportToFile := some (fun _ filename fs =>
      { result := true, fs := (Directory.write fs filename [1, 2, 3]).2, lines := [] }) }

/-- A plugin that advertises both capabilities and overrides nothing. -/
def advertisingPlugin : Plugin Unit Unit :=
  { features := 3, doExportToImage := none, doExportToData := none, doExportToFile := none }

/-- A plugin that advertises `ConvertData` and encodes every image to two bytes. -/
def dataPlugin : Plugin Unit Unit :=
  { features := 2
    doExportToImage := none
    doExportToData := some (fun _ fs => { result := some [137, 80], fs := fs, lines := [] })
    doExportToFile := none }

/-- A plugin whose overriding hooks fail without printing anything. -/
def silentPlugin : Plugin Unit Unit :=
  { features := 3
    doExportToImage := some (fun _ fs => { result := none, fs := fs, lines := [] })
    doExportToData := some (fun _ fs => { result := none, fs := fs, lines := [] })
    doExportToFile := none }

end Trade

/-! ## `Audio::WavImporter::openData` -/

namespace Audio

/-- The output buffer formats the importer can produce. -/
inductive Buffer.Format where
  | Mono8
  | Mono16
  | Stereo8
  | Stereo16
  deriving DecidableEq, Repr

/-- The decoded state of an importer with an open file. -/
structure Decoded where
  format : Buffer.Format
  frequency : Nat
  data : List Nat
  deriving DecidableEq, Repr

/-- An importer together with the error stream: `opened` is `none` while no
file is open. -/
structure WavImporter where
  opened : Option Decoded
  err : List String
  deriving DecidableEq, Repr

/-- Little-endian value of `count` bytes at `offset`. -/
def littleEndian (data : List Nat) (offset count : Nat) : Nat :=
  ((data.drop offset).take count).foldr (fun byte acc => byte % 256 + 256 * acc) 0

/-- The size of the canonical header: 4-byte magic, 4-byte size, 4-byte format
tag, the two sub-chunk headers and the format sub-record. -/
def headerSize : Nat := 44

/-- The failure exit of `openData`: one diagnostic line, nothing open. -/
def WavImporter.fail (importer : WavImporter) (line : String) : Bool × WavImporter :=
  (false, { opened := none, err := importer.err ++ [line] })

/-- Modelled from the spec: the body of `WavImporter::openData` is missing from
the sources (only `WavImporterTest.cpp` is there). The steps are those of the
specification, in its order: size check against the 44-byte header, signature
check (magic at offset 0, format tag at offset 8), format code (linear PCM is
code 1), channel count and bit depth, then the payload of the declared length.
The wording of the diagnostics is the one `WavImporterTest.cpp` compares
against. -/
def WavImporter.openData (importer : WavImporter) (data : List Nat) : Bool × WavImporter :=
  if data.length < headerSize then
    importer.fail (Error.line
      ["Audio::WavImporter::openData(): the file is too short:", toString data.length, "bytes"])
  else if data.take 4 ≠ [82, 73, 70, 70] ∨ (data.drop 8).take 4 ≠ [87, 65, 86, 69] then
    importer.fail "Audio::WavImporter::openData(): the file signature is invalid"
  else if littleEndian data 20 2 ≠ 1 then
    importer.fail (Error.line
      ["Audio::WavImporter::openData(): unsupported audio format",
        toString (littleEndian data 20 2)])
  else
    let channels := littleEndian data 22 2
    let bits := littleEndian data 34 2
    let format : Option Buffer.Format :=
      if channels = 1 ∧ bits = 8 then some Buffer.Format.Mono8
      else if channels = 1 ∧ bits = 16 then some Buffer.Format.Mono16
      else if channels = 2 ∧ bits = 8 then some Buffer.Format.Stereo8
      else if channels = 2 ∧ bits = 16 then some Buffer.Format.Stereo16
      else none
    match format with
    | none =>
      importer.fail (Error.line
        ["Audio::WavImporter::openData(): unsupported channel count", toString channels,
          "with", toString bits, "bits per sample"])
    | some f =>
      (true,
        { opened := some
            { format := f
              frequency := littleEndian data 24 4
              data := (data.drop headerSize).take (littleEndian data 40 4) }
          err := importer.err })

end Audio

/-! ## `Primitives::Cube` -/

/-- A three-component vector; the cube tables only hold `-1.0f`, `0.0f`, `1.0f`. -/
structure Vector3 where
  x : Int
  y : Int
  z : Int
  deriving DecidableEq, Repr

/-- Componentwise difference. -/
def Vector3.sub (a b : Vector3) : Vector3 :=
  { x := a.x - b.x, y := a.y - b.y, z := a.z - b.z }

/-- Cross product. -/
def Vector3.cross (a b : Vector3) : Vector3 :=
  { x := a.y * b.z - a.z * b.y, y := a.z * b.x - a.x * b.z, z := a.x * b.y - a.y * b.x }

/-- Dot product. -/
def Vector3.dot (a b : Vector3) : Int :=
  a.x * b.x + a.y * b.y + a.z * b.z

/-- Multiplication by a scalar. -/
def Vector3.scale (k : Int) (a : Vector3) : Vector3 :=
  { x := k * a.x, y := k * a.y, z := k * a.z }

/-- The component on axis 0, 1 or 2. -/
def Vector3.component (a : Vector3) (axis : Nat) : Int :=
  if axis = 0 then a.x else if axis = 1 then a.y else a.z

/-- The mesh primitives the cube uses. -/
inductive MeshPrimitive where
  | Lines
  | Triangles
  | TriangleStrip
  deriving DecidableEq, Repr

namespace Trade

/-- The arguments of the `MeshData3D` constructor, in its order: primitive,
indices, position arrays, normal arrays, texture coordinate arrays. -/
structure MeshData3D where
  primitive : MeshPrimitive
  indices : List Nat
  positionArrays : List (List Vector3)
  normalArrays : List (List Vector3)
  textureCoords2D : List (List (Int × Int))
  deriving DecidableEq, Repr

/-- The position array `id`. -/
def MeshData3D.positions (m : MeshData3D) (id : Nat) : List Vector3 :=
  m.positionArrays.getD id []

/-- The normal array `id`. -/
def MeshData3D.normals (m : MeshData3D) (id : Nat) : List Vector3 :=
  m.normalArrays.getD id []

end Trade

namespace Primitives

/-- `Cube::solid()`. -/
def Cube.solid : Trade.MeshData3D :=
  { primitive := MeshPrimitive.Triangles
    indices := [
       0,  1,  2,  0,  2,  3,
       4,  5,  6,  4,  6,  7,
       8,  9, 10,  8, 10, 11,
      12, 13, 14, 12, 14, 15,
      16, 17, 18, 16, 18, 19,
      20, 21, 22, 20, 22, 23]
    positionArrays := [[
      ⟨-1, -1,  1⟩,
      ⟨ 1, -1,  1⟩,
      ⟨ 1,  1,  1⟩,
      ⟨-1,  1,  1⟩,

      ⟨ 1, -1,  1⟩,
      ⟨ 1, -1, -1⟩,
      ⟨ 1,  1, -1⟩,
      ⟨ 1,  1,  1⟩,

      ⟨-1,  1,  1⟩,
      ⟨ 1,  1,  1⟩,
      ⟨ 1,  1, -1⟩,
      ⟨-1,  1, -1⟩,

      ⟨ 1, -1, -1⟩,
      ⟨-1, -1, -1⟩,
      ⟨-1,  1, -1⟩,
      ⟨ 1,  1, -1⟩,

      ⟨-1, -1, -1⟩,
      ⟨ 1, -1, -1⟩,
      ⟨ 1, -1,  1⟩,
      ⟨-1, -1,  1⟩,

      ⟨-1, -1, -1⟩,
      ⟨-1, -1,  1⟩,
      ⟨-1,  1,  1⟩,
      ⟨-1,  1, -1⟩]]
    normalArrays := [[
      ⟨ 0,  0,  1⟩,
      ⟨ 0,  0,  1⟩,
      ⟨ 0,  0,  1⟩,
      ⟨ 0,  0,  1⟩,

      ⟨ 1,  0,  0⟩,
      ⟨ 1,  0,  0⟩,
      ⟨ 1,  0,  0⟩,
      ⟨ 1,  0,  0⟩,

      ⟨ 0,  1,  0⟩,
      ⟨ 0,  1,  0⟩,
      ⟨ 0,  1,  0⟩,
      ⟨ 0,  1,  0⟩,

      ⟨ 0,  0, -1⟩,
      ⟨ 0,  0, -1⟩,
      ⟨ 0,  0, -1⟩,
      ⟨ 0,  0, -1⟩,

      ⟨ 0, -1,  0⟩,
      ⟨ 0, -1,  0⟩,
      ⟨ 0, -1,  0⟩,
      ⟨ 0, -1,  0⟩,

      ⟨-1,  0,  0⟩,
      ⟨-1,  0,  0⟩,
      ⟨-1,  0,  0⟩,
      ⟨-1,  0,  0⟩]]
    textureCoords2D := [] }

/-- `Cube::solidStrip()`. -/
def Cube.solidStrip : Trade.MeshData3D :=
  { primitive := MeshPrimitive.TriangleStrip
    indices := []
    positionArrays := [[
      ⟨ 1,  1,  1⟩,
      ⟨-1,  1,  1⟩,
      ⟨ 1, -1,  1⟩,
      ⟨-1, -1,  1⟩,
      ⟨-1, -1, -1⟩,
      ⟨-1,  1,  1⟩,
      ⟨-1,  1, -1⟩,
      ⟨ 1,  1,  1⟩,
      ⟨ 1,  1, -1⟩,
      ⟨ 1, -1,  1⟩,
      ⟨ 1, -1, -1⟩,
      ⟨-1, -1, -1⟩,
      ⟨ 1,  1, -1⟩,
      ⟨-1,  1, -1⟩]]
    normalArrays := []
    textureCoords2D := [] }

/-- `Cube::wireframe()`. -/
def Cube.wireframe : Trade.MeshData3D :=
  { primitive := MeshPrimitive.Lines
    indices := [
      0, 1, 1, 2, 2, 3, 3, 0,
      4, 5, 5, 6, 6, 7, 7, 4,
      1, 5, 2, 6,
      0, 4, 3, 7]
    positionArrays := [[
      ⟨-1, -1,  1⟩,
      ⟨ 1, -1,  1⟩,
      ⟨ 1,  1,  1⟩,
      ⟨-1,  1,  1⟩,

      ⟨-1, -1, -1⟩,
      ⟨ 1, -1, -1⟩,
      ⟨ 1,  1, -1⟩,
      ⟨-1,  1, -1⟩]]
    normalArrays := []
    textureCoords2D := [] }

/-! ### Reading the meshes -/

/-- Entry `k` of the index array. -/
def index (m : Trade.MeshData3D) (k : Nat) : Nat :=
  m.indices.getD k 0

/-- Position `i` of position array 0. -/
def vertex (m : Trade.MeshData3D) (i : Nat) : Vector3 :=
  (m.positions 0).getD i ⟨0, 0, 0⟩

/-- Normal `i` of normal array 0. -/
def normal (m : Trade.MeshData3D) (i : Nat) : Vector3 :=
  (m.normals 0).getD i ⟨0, 0, 0⟩

/-- The cross product `(b - a) x (c - a)` of the triangle `a`, `b`, `c`. -/
def faceCross (a b c : Vector3) : Vector3 :=
  (b.sub a).cross (c.sub a)

/-- The cross product of triangle `t` of an indexed triangle list. -/
def triangleCross (m : Trade.MeshData3D) (t : Nat) : Vector3 :=
  faceCross (vertex m (index m (3 * t))) (vertex m (index m (3 * t + 1)))
    (vertex m (index m (3 * t + 2)))

/-- In how many coordinates two vectors differ. -/
def differingCoordinates (a b : Vector3) : Nat :=
  (if a.x = b.x then 0 else 1) + (if a.y = b.y then 0 else 1) + (if a.z = b.z then 0 else 1)

/-- The eight corners of the cube `[-1, 1]^3`. -/
def cubeCorners : List Vector3 :=
  [⟨-1, -1, -1⟩, ⟨-1, -1, 1⟩, ⟨-1, 1, -1⟩, ⟨-1, 1, 1⟩,
   ⟨1, -1, -1⟩, ⟨1, -1, 1⟩, ⟨1, 1, -1⟩, ⟨1, 1, 1⟩]

/-- The coordinate value of a face: `1` for the positive one, `-1` for the
negative one. -/
def faceSign (positive : Bool) : Int :=
  if positive then 1 else -1

/-- The outward unit normal of the face of the cube on `axis`. -/
def faceNormal (axis : Nat) (positive : Bool) : Vector3 :=
  if axis = 0 then ⟨faceSign positive, 0, 0⟩
  else if axis = 1 then ⟨0, faceSign positive, 0⟩
  else ⟨0, 0, faceSign positive⟩

/-- Whether a point lies in the plane of a face. -/
def inFace (axis : Nat) (positive : Bool) (v : Vector3) : Bool :=
  v.component axis == faceSign positive

/-- The three vertices of triangle `i` of a non-indexed strip. -/
def stripVertices (m : Trade.MeshData3D) (i : Nat) : List Vector3 :=
  [vertex m i, vertex m (i + 1), vertex m (i + 2)]

/-- Whether triangle `i` of a strip lies in the plane of a face. -/
def stripTriangleInFace (m : Trade.MeshData3D) (axis : Nat) (positive : Bool) (i : Nat) :
    Bool :=
  (stripVertices m i).all (inFace axis positive)

/-- The cross product of triangle `i` of a strip under the strip winding rule:
the first two vertices are swapped for odd `i`. -/
def stripCross (m : Trade.MeshData3D) (i : Nat) : Vector3 :=
  if i % 2 = 0 then faceCross (vertex m i) (vertex m (i + 1)) (vertex m (i + 2))
  else faceCross (vertex m (i + 1)) (vertex m i) (vertex m (i + 2))

/-- The triangles of a strip of `count` triangles that lie in a face. -/
def stripTrianglesInFace (m : Trade.MeshData3D) (count axis : Nat) (positive : Bool) :
    List Nat :=
  (List.range count).filter (stripTriangleInFace m axis positive)

/-- The distinct vertices of the triangles of a strip that lie in a face. -/
def stripFaceVertices (m : Trade.MeshData3D) (count axis : Nat) (positive : Bool) :
    List Vector3 :=
  ((stripTrianglesInFace m count axis positive).flatMap (stripVertices m)).dedup

/-- The two end points of segment `s` of an indexed line list. -/
def segment (m : Trade.MeshData3D) (s : Nat) : Nat × Nat :=
  (index m (2 * s), index m (2 * s + 1))

/-- Whether two segments join the same two points, in either direction. -/
def sameSegment (a b : Nat × Nat) : Bool :=
  (a.1 == b.1 && a.2 == b.2) || (a.1 == b.2 && a.2 == b.1)

/-- The vertices that triangles `i` and `j` of a strip have in common. -/
def sharedVertices (m : Trade.MeshData3D) (i j : Nat) : List Vector3 :=
  ((stripVertices m i).filter (fun v => (stripVertices m j).contains v)).dedup

/-- The side of the edge from `a` to `b` on which the point `q / s` lies, seen
against the direction `n`: for `s > 0` the value is `s` times
`((b - a) x (q / s - a)) . n`, nonnegative when the point is on the left of
the edge or on it. -/
def edgeSide (n a b : Vector3) (s : Int) (q : Vector3) : Int :=
  ((b.sub a).cross (q.sub (a.scale s))).dot n

/-- Whether the point `q / s` lies in the closed triangle `a`, `b`, `c`: in its
plane and on the inner side of each edge. -/
def inTriangle (a b c : Vector3) (s : Int) (q : Vector3) : Prop :=
  (q.sub (a.scale s)).dot (faceCross a b c) = 0 ∧
  0 ≤ edgeSide (faceCross a b c) a b s q ∧
  0 ≤ edgeSide (faceCross a b c) b c s q ∧
  0 ≤ edgeSide (faceCross a b c) c a s q

/-- Whether the point `q / s` lies on a face of the cube `[-1, 1]^3`. -/
def onFace (axis : Nat) (positive : Bool) (s : Int) (q : Vector3) : Prop :=
  q.component axis = s * faceSign positive ∧
  (-s ≤ q.x ∧ q.x ≤ s) ∧ (-s ≤ q.y ∧ q.y ≤ s) ∧ (-s ≤ q.z ∧ q.z ≤ s)

end Primitives

/-! # Theorems -/

namespace Trade

variable {ImageReference2D Image2D : Type}

/-! ## Projections of a trace -/

theorem errorLines_append (a b : List Event) :
    errorLines (a ++ b) = errorLines a ++ errorLines b := by
  induction a with
  | nil => rfl
  | cons e es ih => cases e <;> simp [errorLines, ih]

theorem ownLines_append (a b : List Event) :
    ownLines (a ++ b) = ownLines a ++ ownLines b := by
  induction a with
  | nil => rfl
  | cons e es ih => cases e <;> simp [ownLines, ih]

theorem hookCalls_append (a b : List Event) :
    hookCalls (a ++ b) = hookCalls a ++ hookCalls b := by
  induction a with
  | nil => rfl
  | cons e es ih => cases e <;> simp [hookCalls, ih]

theorem writeCalls_append (a b : List Event) :
    writeCalls (a ++ b) = writeCalls a ++ writeCalls b := by
  induction a with
  | nil => rfl
  | cons e es ih => cases e <;> simp [writeCalls, ih]

theorem ownLines_pluginError (ls : List String) :
    ownLines (ls.map Event.pluginError) = [] := by
  induction ls with
  | nil => rfl
  | cons l ls ih => simp [ownLines, ih]

theorem errorLines_pluginError (ls : List String) :
    errorLines (ls.map Event.pluginError) = ls := by
  induction ls with
  | nil => rfl
  | cons l ls ih => simp [errorLines, ih]

theorem writeCalls_pluginError (ls : List String) :
    writeCalls (ls.map Event.pluginError) = [] := by
  induction ls with
  | nil => rfl
  | cons l ls ih => simp [writeCalls, ih]

/-! ## Capability gating -/

/-- Counterexample to claim C1 as stated: a plugin whose capability set is empty
(so it excludes `ConvertData`) but which overrides `doExportToFile`. Calling
`exportToFile` enters the override, returns `true` and leaves a file behind:
`exportToFile` dispatches to the hook without looking at the capability set. -/
theorem exportToFile_override_ignores_capabilities :
    fileOnlyPlugin.features &&& exampleFeature.ConvertData = 0 ∧
    (exportToFile exampleFeature fileOnlyPlugin () "out.bin" emptyWorld).1 = true ∧
    hookCalls (exportToFile exampleFeature fileOnlyPlugin () "out.bin" emptyWorld).2.trace
      = [Hook.doExportToFile] ∧
    emptyWorld.fs.read "out.bin" = none ∧
    (exportToFile exampleFeature fileOnlyPlugin () "out.bin" emptyWorld).2.fs.read "out.bin"
      = some [1, 2, 3] := by
  decide

/-- Claim C1, amended: without `ConvertImage`, `exportToImage` returns empty;
without `ConvertData`, `exportToData` returns the null array and, for a plugin
that keeps the default `doExportToFile`, `exportToFile` returns `false`. In each
case the final state is the initial one plus a single line printed by
`AbstractImageConverter`: same filesystem, no overriding hook entered, no
`Directory::write`. A plugin that overrides `doExportToFile` has its override
run by `exportToFile` whatever its capability set. -/
theorem capability_gating (F : Feature) (p : Plugin ImageReference2D Image2D)
    (image : ImageReference2D) (filename : String) (w : World) :
    (p.features &&& F.ConvertImage = 0 →
      exportToImage F p image w = (none, emit w
        "Trade::AbstractImageConverter::exportToImage(): feature not supported")) ∧
    (p.features &&& F.ConvertData = 0 →
      exportToData F p image w = (none, emit w
        "Trade::AbstractImageConverter::exportToData(): feature not supported")) ∧
    (p.features &&& F.ConvertData = 0 → p.doExportToFile = none →
      exportToFile F p image filename w = (false, emit w
        "Trade::AbstractImageConverter::exportToFile(): not implemented")) ∧
    (∀ line, (emit w line).fs = w.fs ∧
      hookCalls (emit w line).trace = hookCalls w.trace ∧
      writeCalls (emit w line).trace = writeCalls w.trace ∧
      errorLines (emit w line).trace = errorLines w.trace ++ [line]) ∧
    (∀ f, p.doExportToFile = some f →
      exportToFile F p image filename w = runHook Hook.doExportToFile (f image filename) w) := by
  refine ⟨?_, ?_, ?_, ?_, ?_⟩
  · intro h
    simp [exportToImage, h]
  · intro h
    simp [exportToData, h]
  · intro h hdef
    simp [exportToFile, doExportToFile, hdef, h]
  · intro line
    simp [emit, hookCalls_append, writeCalls_append, errorLines_append, hookCalls, writeCalls,
      errorLines]
  · intro f hf
    simp [exportToFile, doExportToFile, hf]

/-- The gating theorem at a plugin with an empty capability set. -/
theorem capability_gating_witness :
    exportToImage exampleFeature barePlugin () emptyWorld = (none, emit emptyWorld
        "Trade::AbstractImageConverter::exportToImage(): feature not supported") ∧
    exportToData exampleFeature barePlugin () emptyWorld = (none, emit emptyWorld
        "Trade::AbstractImageConverter::exportToData(): feature not supported") ∧
    exportToFile exampleFeature barePlugin () "out.bin" emptyWorld = (false, emit emptyWorld
        "Trade::AbstractImageConverter::exportToFile(): not implemented") :=
  ⟨(capability_gating exampleFeature barePlugin () "out.bin" emptyWorld).1 (by decide),
   (capability_gating exampleFeature barePlugin () "out.bin" emptyWorld).2.1 (by decide),
   (capability_gating exampleFeature barePlugin () "out.bin" emptyWorld).2.2.1 (by decide) rfl⟩

/-! ## `exportToFile` over `exportToData` -/

theorem exportToData_of_advertised (F : Feature) (p : Plugin ImageReference2D Image2D)
    (image : ImageReference2D) (w : World) (h : p.features &&& F.ConvertData ≠ 0) :
    exportToData F p image w = doExportToData p image w := by
  simp [exportToData, h]

theorem exportToFile_default (F : Feature) (p : Plugin ImageReference2D Image2D)
    (image : ImageReference2D) (filename : String) (w : World)
    (h : p.features &&& F.ConvertData ≠ 0) (hdef : p.doExportToFile = none) :
    exportToFile F p image filename w =
      match exportToData F p image w with
      | (none, w1) => (false, w1)
      | (some data, w1) =>
        match Directory.write w1.fs filename data with
        | (false, fs2) =>
          (false, emit { fs := fs2, trace := w1.trace ++ [Event.write filename data false] }
            ("Trade::AbstractImageConverter::exportToFile(): cannot write to file" ++ " "
              ++ filename))
        | (true, fs2) =>
          (true, { fs := fs2, trace := w1.trace ++ [Event.write filename data true] }) := by
  rw [exportToData_of_advertised F p image w h]
  simp [exportToFile, doExportToFile, hdef, h, Error.line]

theorem read_write (fs : FileSystem) (filename : String) (data : List Nat)
    (h : (Directory.write fs filename data).1 = true) :
    (Directory.write fs filename data).2.read filename = some data := by
  unfold Directory.write at h ⊢
  split
  · simp_all
  · simp [FileSystem.read]

theorem write_failed (fs : FileSystem) (filename : String) (data : List Nat)
    (h : (Directory.write fs filename data).1 = false) :
    (Directory.write fs filename data).2 = fs := by
  unfold Directory.write at h ⊢
  split
  · rfl
  · simp_all

/-- Claim C2: for a plugin that advertises `ConvertData` and keeps the default
`doExportToFile`, when `exportToData` yields the non-null buffer `data` and the
write to `filename` succeeds, `exportToFile` returns `true` and afterwards the
file `filename` holds exactly `data`. -/
theorem exportToFile_writes_exportToData (F : Feature) (p : Plugin ImageReference2D Image2D)
    (image : ImageReference2D) (filename : String) (w : World) (data : List Nat)
    (hfeat : p.features &&& F.ConvertData ≠ 0) (hdef : p.doExportToFile = none)
    (hdata : (exportToData F p image w).1 = some data)
    (hwrite : (Directory.write (exportToData F p image w).2.fs filename data).1 = true) :
    (exportToFile F p image filename w).1 = true ∧
    (exportToFile F p image filename w).2.fs.read filename = some data := by
  rw [exportToFile_default F p image filename w hfeat hdef]
  have hr := read_write _ _ _ hwrite
  rcases hx : exportToData F p image w with ⟨r, w1⟩
  rw [hx] at hdata hwrite hr
  simp only at hdata hwrite hr
  subst hdata
  dsimp only
  rcases hy : Directory.write w1.fs filename data with ⟨ok, fs2⟩
  rw [hy] at hwrite hr
  simp only at hwrite hr
  subst hwrite
  exact ⟨rfl, hr⟩

/-- Claim C2 at a plugin that encodes to two bytes, on a writable filesystem. -/
theorem exportToFile_writes_exportToData_witness :
    (exportToData exampleFeature dataPlugin () emptyWorld).1 = some [137, 80] ∧
    (exportToFile exampleFeature dataPlugin () "out.bin" emptyWorld).1 = true ∧
    (exportToFile exampleFeature dataPlugin () "out.bin" emptyWorld).2.fs.read "out.bin"
      = some [137, 80] :=
  ⟨by decide,
   exportToFile_writes_exportToData exampleFeature dataPlugin () "out.bin" emptyWorld [137, 80]
    (by decide) rfl (by decide) (by decide)⟩

/-- Claim C6: for a plugin that advertises `ConvertData` and keeps the default
`doExportToFile`, when `exportToData` yields the non-null buffer `data` but the
write to `filename` fails, `exportToFile` returns `false`; what it adds to the
trace after obtaining the data is the failed write and the one line
`Trade::AbstractImageConverter::exportToFile(): cannot write to file <filename>`,
and the filesystem is as the data export left it. -/
theorem exportToFile_write_failure (F : Feature) (p : Plugin ImageReference2D Image2D)
    (image : ImageReference2D) (filename : String) (w : World) (data : List Nat)
    (hfeat : p.features &&& F.ConvertData ≠ 0) (hdef : p.doExportToFile = none)
    (hdata : (exportToData F p image w).1 = some data)
    (hwrite : (Directory.write (exportToData F p image w).2.fs filename data).1 = false) :
    (exportToFile F p image filename w).1 = false ∧
    (exportToFile F p image filename w).2.trace =
      (exportToData F p image w).2.trace ++
        [Event.write filename data false,
         Event.error
          ("Trade::AbstractImageConverter::exportToFile(): cannot write to file " ++ filename)] ∧
    (exportToFile F p image filename w).2.fs = (exportToData F p image w).2.fs := by
  rw [exportToFile_default F p image filename w hfeat hdef]
  have hr := write_failed _ _ _ hwrite
  rcases hx : exportToData F p image w with ⟨r, w1⟩
  rw [hx] at hdata hwrite hr
  simp only at hdata hwrite hr
  subst hdata
  dsimp only
  rcases hy : Directory.write w1.fs filename data with ⟨ok, fs2⟩
  rw [hy] at hwrite hr
  simp only at hwrite hr
  subst hwrite
  subst hr
  refine ⟨rfl, ?_, rfl⟩
  simp [emit, String.append_assoc]

/-- Claim C6 at a plugin that encodes to two bytes, `out.bin` being unwritable. -/
theorem exportToFile_write_failure_witness :
    (exportToFile exampleFeature dataPlugin () "out.bin" readOnlyWorld).1 = false ∧
    (exportToFile exampleFeature dataPlugin () "out.bin" readOnlyWorld).2.trace =
      (exportToData exampleFeature dataPlugin () readOnlyWorld).2.trace ++
        [Event.write "out.bin" [137, 80] false,
         Event.error
          ("Trade::AbstractImageConverter::exportToFile(): cannot write to file " ++ "out.bin")] ∧
    (exportToFile exampleFeature dataPlugin () "out.bin" readOnlyWorld).2.fs =
      (exportToData exampleFeature dataPlugin () readOnlyWorld).2.fs :=
  exportToFile_write_failure exampleFeature dataPlugin () "out.bin" readOnlyWorld [137, 80]
    (by decide) rfl (by decide) (by decide)

/-! ## What a hook dispatch leaves behind -/

theorem runHook_fst {R : Type} (h : Hook) (body : FileSystem → HookOutcome R) (w : World) :
    (runHook h body w).1 = (body w.fs).result := rfl

theorem runHook_fs {R : Type} (h : Hook) (body : FileSystem → HookOutcome R) (w : World) :
    (runHook h body w).2.fs = (body w.fs).fs := rfl

theorem runHook_ownLines {R : Type} (h : Hook) (body : FileSystem → HookOutcome R) (w : World) :
    ownLines (runHook h body w).2.trace = ownLines w.trace := by
  simp [runHook, ownLines_append, ownLines, ownLines_pluginError]

theorem runHook_errorLines {R : Type} (h : Hook) (body : FileSystem → HookOutcome R)
    (w : World) :
    errorLines (runHook h body w).2.trace = errorLines w.trace ++ (body w.fs).lines := by
  simp [runHook, errorLines_append, errorLines, errorLines_pluginError]

theorem runHook_writeCalls {R : Type} (h : Hook) (body : FileSystem → HookOutcome R)
    (w : World) :
    writeCalls (runHook h body w).2.trace = writeCalls w.trace := by
  simp [runHook, writeCalls_append, writeCalls, writeCalls_pluginError]

theorem doExportToImage_cases (p : Plugin ImageReference2D Image2D) (image : ImageReference2D)
    (w : World) :
    (p.doExportToImage = none ∧ doExportToImage p image w = (none, emit w
      "Trade::AbstractImageConverter::exportToImage(): feature advertised but not implemented")) ∨
    (∃ f, p.doExportToImage = some f ∧
      doExportToImage p image w = runHook Hook.doExportToImage (f image) w) := by
  unfold doExportToImage
  cases h : p.doExportToImage with
  | none => exact Or.inl ⟨rfl, rfl⟩
  | some f => exact Or.inr ⟨f, rfl, rfl⟩

theorem doExportToData_cases (p : Plugin ImageReference2D Image2D) (image : ImageReference2D)
    (w : World) :
    (p.doExportToData = none ∧ doExportToData p image w = (none, emit w
      "Trade::AbstractImageConverter::exportToData(): feature advertised but not implemented")) ∨
    (∃ f, p.doExportToData = some f ∧
      doExportToData p image w = runHook Hook.doExportToData (f image) w) := by
  unfold doExportToData
  cases h : p.doExportToData with
  | none => exact Or.inl ⟨rfl, rfl⟩
  | some f => exact Or.inr ⟨f, rfl, rfl⟩

theorem emit_writeCalls (w : World) (line : String) :
    writeCalls (emit w line).trace = writeCalls w.trace := by
  simp [emit, writeCalls_append, writeCalls]

theorem exportToData_writeCalls (F : Feature) (p : Plugin ImageReference2D Image2D)
    (image : ImageReference2D) (w : World) :
    writeCalls (exportToData F p image w).2.trace = writeCalls w.trace := by
  unfold exportToData
  split
  · rcases doExportToData_cases p image w with ⟨_, h⟩ | ⟨f, _, h⟩
    · rw [h]; exact emit_writeCalls _ _
    · rw [h]; exact runHook_writeCalls _ _ _
  · exact emit_writeCalls _ _

theorem exportToData_fs (F : Feature) (p : Plugin ImageReference2D Image2D)
    (image : ImageReference2D) (w : World)
    (hpure : ∀ f, p.doExportToData = some f → (f image w.fs).fs = w.fs) :
    (exportToData F p image w).2.fs = w.fs := by
  unfold exportToData
  split
  · rcases doExportToData_cases p image w with ⟨_, h⟩ | ⟨f, hf, h⟩
    · rw [h]; rfl
    · rw [h]; exact hpure f hf
  · rfl

/-- Claim C3: with the default `doExportToFile`, for every plugin, image and
filename: if `exportToData` yields the null array then `exportToFile` returns
`false`, makes no `Directory::write` call and leaves the filesystem exactly as
the data export left it (unchanged when the data hook does not touch the
filesystem itself); in every case the only buffer `exportToFile` hands to
`Directory::write` is the one `exportToData` returns, under the file name given;
and with `ConvertData` advertised a failed encode leaves `exportToFile` in the
very state `exportToData` ends in. -/
theorem exportToFile_delegates (F : Feature) (p : Plugin ImageReference2D Image2D)
    (image : ImageReference2D) (filename : String) (w : World)
    (hdef : p.doExportToFile = none) :
    ((exportToData F p image w).1 = none →
      (exportToFile F p image filename w).1 = false ∧
      writeCalls (exportToFile F p image filename w).2.trace = writeCalls w.trace ∧
      (exportToFile F p image filename w).2.fs = (exportToData F p image w).2.fs ∧
      ((∀ f, p.doExportToData = some f → (f image w.fs).fs = w.fs) →
        (exportToFile F p image filename w).2.fs = w.fs)) ∧
    writeCalls (exportToFile F p image filename w).2.trace =
      writeCalls w.trace ++
        (match (exportToData F p image w).1 with
          | none => []
          | some data => [(filename, data)]) ∧
    (p.features &&& F.ConvertData ≠ 0 → (exportToData F p image w).1 = none →
      exportToFile F p image filename w = (false, (exportToData F p image w).2)) := by
  by_cases hfeat : p.features &&& F.ConvertData ≠ 0
  · rw [exportToFile_default F p image filename w hfeat hdef]
    have hw := exportToData_writeCalls F p image w
    have hfs := exportToData_fs F p image w
    rcases hx : exportToData F p image w with ⟨r, w1⟩
    rw [hx] at hw hfs
    cases r with
    | none =>
      refine ⟨fun _ => ⟨rfl, hw, rfl, hfs⟩, ?_, fun _ _ => rfl⟩
      simpa using hw
    | some data =>
      refine ⟨fun h => by simp at h, ?_, fun _ h => by simp at h⟩
      dsimp only
      dsimp only at hw
      rcases hy : Directory.write w1.fs filename data with ⟨ok, fs2⟩
      cases ok <;> simp [emit, writeCalls_append, writeCalls, hw]
  · have hnf : p.features &&& F.ConvertData = 0 := by simpa using hfeat
    have h1 : exportToData F p image w = (none, emit w
        "Trade::AbstractImageConverter::exportToData(): feature not supported") := by
      simp [exportToData, hnf]
    have h2 : exportToFile F p image filename w = (false, emit w
        "Trade::AbstractImageConverter::exportToFile(): not implemented") := by
      simp [exportToFile, doExportToFile, hdef, hnf]
    rw [h1, h2]
    refine ⟨fun _ => ⟨rfl, emit_writeCalls _ _, rfl, fun _ => rfl⟩, ?_, fun h => absurd h hfeat⟩
    simpa using emit_writeCalls _ _

/-- Claim C3 at a plugin whose encoder fails and at one whose encoder succeeds. -/
theorem exportToFile_delegates_witness :
    (exportToFile exampleFeature silentPlugin () "out.bin" emptyWorld).1 = false ∧
    (exportToFile exampleFeature silentPlugin () "out.bin" emptyWorld).2.fs = emptyWorld.fs ∧
    writeCalls (exportToFile exampleFeature dataPlugin () "out.bin" emptyWorld).2.trace =
      [("out.bin", [137, 80])] :=
  ⟨((exportToFile_delegates exampleFeature silentPlugin () "out.bin" emptyWorld rfl).1
      (by decide)).1,
   ((exportToFile_delegates exampleFeature silentPlugin () "out.bin" emptyWorld rfl).1
      (by decide)).2.2.2 (fun f hf => by cases hf; rfl),
   (exportToFile_delegates exampleFeature dataPlugin () "out.bin" emptyWorld rfl).2.1⟩

/-! ## The two tiers of failure -/

/-- Claim C4: a plugin that advertises `ConvertImage` (resp. `ConvertData`)
without overriding `doExportToImage` (resp. `doExportToData`) gets an empty
result and the single line "feature advertised but not implemented" of that
operation; without the capability the line is "feature not supported", a
different text; with the capability and an overriding hook the operation
returns the hook's result, the trace gains the hook's entry and the hook's own
lines only, and `AbstractImageConverter` prints nothing itself. -/
theorem two_tier_failure (F : Feature) (p : Plugin ImageReference2D Image2D)
    (image : ImageReference2D) (w : World) :
    (p.features &&& F.ConvertImage ≠ 0 → p.doExportToImage = none →
      exportToImage F p image w = (none, emit w
        "Trade::AbstractImageConverter::exportToImage(): feature advertised but not implemented")) ∧
    (p.features &&& F.ConvertData ≠ 0 → p.doExportToData = none →
      exportToData F p image w = (none, emit w
        "Trade::AbstractImageConverter::exportToData(): feature advertised but not implemented")) ∧
    (p.features &&& F.ConvertImage = 0 →
      exportToImage F p image w = (none, emit w
        "Trade::AbstractImageConverter::exportToImage(): feature not supported")) ∧
    (p.features &&& F.ConvertData = 0 →
      exportToData F p image w = (none, emit w
        "Trade::AbstractImageConverter::exportToData(): feature not supported")) ∧
    "Trade::AbstractImageConverter::exportToImage(): feature advertised but not implemented" ≠
      "Trade::AbstractImageConverter::exportToImage(): feature not supported" ∧
    "Trade::AbstractImageConverter::exportToData(): feature advertised but not implemented" ≠
      "Trade::AbstractImageConverter::exportToData(): feature not supported" ∧
    (∀ f, p.features &&& F.ConvertImage ≠ 0 → p.doExportToImage = some f →
      (exportToImage F p image w).1 = (f image w.fs).result ∧
      (exportToImage F p image w).2.trace =
        w.trace ++ Event.hook Hook.doExportToImage :: (f image w.fs).lines.map Event.pluginError ∧
      ownLines (exportToImage F p image w).2.trace = ownLines w.trace) ∧
    (∀ f, p.features &&& F.ConvertData ≠ 0 → p.doExportToData = some f →
      (exportToData F p image w).1 = (f image w.fs).result ∧
      (exportToData F p image w).2.trace =
        w.trace ++ Event.hook Hook.doExportToData :: (f image w.fs).lines.map Event.pluginError ∧
      ownLines (exportToData F p image w).2.trace = ownLines w.trace) := by
  refine ⟨?_, ?_, ?_, ?_, by decide, by decide, ?_, ?_⟩
  · intro h hd
    simp [exportToImage, doExportToImage, h, hd]
  · intro h hd
    simp [exportToData, doExportToData, h, hd]
  · intro h
    simp [exportToImage, h]
  · intro h
    simp [exportToData, h]
  · intro f h hf
    have e : exportToImage F p image w = runHook Hook.doExportToImage (f image) w := by
      simp [exportToImage, doExportToImage, h, hf]
    rw [e]
    exact ⟨rfl, rfl, runHook_ownLines _ _ _⟩
  · intro f h hf
    have e : exportToData F p image w = runHook Hook.doExportToData (f image) w := by
      simp [exportToData, doExportToData, h, hf]
    rw [e]
    exact ⟨rfl, rfl, runHook_ownLines _ _ _⟩

/-- Claim C4 at plugins with, and without, capabilities and overrides. -/
theorem two_tier_failure_witness :
    exportToImage exampleFeature advertisingPlugin () emptyWorld = (none, emit emptyWorld
      "Trade::AbstractImageConverter::exportToImage(): feature advertised but not implemented") ∧
    exportToData exampleFeature advertisingPlugin () emptyWorld = (none, emit emptyWorld
      "Trade::AbstractImageConverter::exportToData(): feature advertised but not implemented") ∧
    exportToImage exampleFeature barePlugin () emptyWorld = (none, emit emptyWorld
      "Trade::AbstractImageConverter::exportToImage(): feature not supported") ∧
    exportToData exampleFeature barePlugin () emptyWorld = (none, emit emptyWorld
      "Trade::AbstractImageConverter::exportToData(): feature not supported") ∧
    (exportToData exampleFeature dataPlugin () emptyWorld).1 = some [137, 80] ∧
    (exportToData exampleFeature dataPlugin () emptyWorld).2.trace =
      [Event.hook Hook.doExportToData] :=
  ⟨(two_tier_failure exampleFeature advertisingPlugin () emptyWorld).1 (by decide) rfl,
   (two_tier_failure exampleFeature advertisingPlugin () emptyWorld).2.1 (by decide) rfl,
   (two_tier_failure exampleFeature barePlugin () emptyWorld).2.2.1 (by decide),
   (two_tier_failure exampleFeature barePlugin () emptyWorld).2.2.2.1 (by decide),
   ((two_tier_failure exampleFeature dataPlugin () emptyWorld).2.2.2.2.2.2.2 _
      (by decide) rfl).1,
   ((two_tier_failure exampleFeature dataPlugin () emptyWorld).2.2.2.2.2.2.2 _
      (by decide) rfl).2.1⟩

/-! ## Diagnostics of the failure paths -/

theorem hasForm_of_message (operation message : String) :
    hasForm operation ("Trade::AbstractImageConverter::" ++ operation ++ "(): " ++ message)
      = true := by
  simp [hasForm, String.data_append]

/-- Counterexample to claim C5 as stated. A plugin that advertises `ConvertData`
and overrides nothing: `exportToFile` fails and the one line printed names
`exportToData`, not the operation called. A plugin whose overriding hooks
return empty without printing: `exportToImage` and `exportToFile` fail with no
line at all. -/
theorem exportToFile_failure_lines_counterexample :
    (exportToFile exampleFeature advertisingPlugin () "out.bin" emptyWorld).1 = false ∧
    errorLines (exportToFile exampleFeature advertisingPlugin () "out.bin" emptyWorld).2.trace =
      ["Trade::AbstractImageConverter::exportToData(): feature advertised but not implemented"] ∧
    hasForm "exportToFile"
      "Trade::AbstractImageConverter::exportToData(): feature advertised but not implemented"
      = false ∧
    (exportToImage exampleFeature silentPlugin () emptyWorld).1 = none ∧
    errorLines (exportToImage exampleFeature silentPlugin () emptyWorld).2.trace = [] ∧
    (exportToFile exampleFeature silentPlugin () "out.bin" emptyWorld).1 = false ∧
    errorLines (exportToFile exampleFeature silentPlugin () "out.bin" emptyWorld).2.trace = [] := by
  decide

/-- Claim C5, amended: each failure that `AbstractImageConverter` detects itself
prints exactly one line `Trade::AbstractImageConverter::<operation>(): <message>`
and does nothing else, the line being fixed by the cause. Missing capability:
`exportToImage(): feature not supported`, `exportToData(): feature not supported`
and, with the default file hook, `exportToFile(): not implemented`. Default hook
reached: `exportToImage(): feature advertised but not implemented` and
`exportToData(): feature advertised but not implemented`, the latter also when
`exportToFile` reaches the default data hook, so that line names `exportToData`.
Failed write: `exportToFile(): cannot write to file <filename>`, after the
lines of the data hook. When an overriding hook returns empty,
`AbstractImageConverter` prints nothing itself and the error stream gains
exactly the hook's lines. With the default file hook these are the only ways
for `exportToFile` to return `false`: it returns `true` when the write
succeeds. -/
theorem failure_diagnostics (F : Feature) (p : Plugin ImageReference2D Image2D)
    (image : ImageReference2D) (filename : String) (w : World) :
    (p.features &&& F.ConvertImage = 0 →
      exportToImage F p image w = (none, emit w
        "Trade::AbstractImageConverter::exportToImage(): feature not supported")) ∧
    (p.features &&& F.ConvertImage ≠ 0 → p.doExportToImage = none →
      exportToImage F p image w = (none, emit w
        "Trade::AbstractImageConverter::exportToImage(): feature advertised but not implemented")) ∧
    (∀ f, p.features &&& F.ConvertImage ≠ 0 → p.doExportToImage = some f →
      exportToImage F p image w = runHook Hook.doExportToImage (f image) w ∧
      ownLines (exportToImage F p image w).2.trace = ownLines w.trace ∧
      errorLines (exportToImage F p image w).2.trace =
        errorLines w.trace ++ (f image w.fs).lines) ∧
    (p.features &&& F.ConvertData = 0 →
      exportToData F p image w = (none, emit w
        "Trade::AbstractImageConverter::exportToData(): feature not supported")) ∧
    (p.features &&& F.ConvertData ≠ 0 → p.doExportToData = none →
      exportToData F p image w = (none, emit w
        "Trade::AbstractImageConverter::exportToData(): feature advertised but not implemented")) ∧
    (∀ f, p.features &&& F.ConvertData ≠ 0 → p.doExportToData = some f →
      exportToData F p image w = runHook Hook.doExportToData (f image) w ∧
      ownLines (exportToData F p image w).2.trace = ownLines w.trace ∧
      errorLines (exportToData F p image w).2.trace =
        errorLines w.trace ++ (f image w.fs).lines) ∧
    (p.doExportToFile = none → p.features &&& F.ConvertData = 0 →
      exportToFile F p image filename w = (false, emit w
        "Trade::AbstractImageConverter::exportToFile(): not implemented")) ∧
    (p.doExportToFile = none → p.features &&& F.ConvertData ≠ 0 → p.doExportToData = none →
      exportToFile F p image filename w = (false, emit w
        "Trade::AbstractImageConverter::exportToData(): feature advertised but not implemented")) ∧
    (∀ f, p.doExportToFile = none → p.features &&& F.ConvertData ≠ 0 →
      p.doExportToData = some f → (f image w.fs).result = none →
      exportToFile F p image filename w =
        (false, (runHook Hook.doExportToData (f image) w).2) ∧
      ownLines (exportToFile F p image filename w).2.trace = ownLines w.trace ∧
      errorLines (exportToFile F p image filename w).2.trace =
        errorLines w.trace ++ (f image w.fs).lines) ∧
    (∀ f data, p.doExportToFile = none → p.features &&& F.ConvertData ≠ 0 →
      p.doExportToData = some f → (f image w.fs).result = some data →
      (Directory.write (f image w.fs).fs filename data).1 = false →
      (exportToFile F p image filename w).1 = false ∧
      (exportToFile F p image filename w).2.trace =
        (runHook Hook.doExportToData (f image) w).2.trace ++
          [Event.write filename data false,
           Event.error
            ("Trade::AbstractImageConverter::exportToFile(): cannot write to file "
              ++ filename)] ∧
      ownLines (exportToFile F p image filename w).2.trace = ownLines w.trace ++
        ["Trade::AbstractImageConverter::exportToFile(): cannot write to file " ++ filename] ∧
      errorLines (exportToFile F p image filename w).2.trace =
        errorLines w.trace ++ (f image w.fs).lines ++
        ["Trade::AbstractImageConverter::exportToFile(): cannot write to file " ++ filename]) ∧
    (∀ f data, p.doExportToFile = none → p.features &&& F.ConvertData ≠ 0 →
      p.doExportToData = some f → (f image w.fs).result = some data →
      (Directory.write (f image w.fs).fs filename data).1 = true →
      (exportToFile F p image filename w).1 = true) ∧
    (∀ line, (emit w line).fs = w.fs ∧
      (emit w line).trace = w.trace ++ [Event.error line] ∧
      ownLines (emit w line).trace = ownLines w.trace ++ [line] ∧
      errorLines (emit w line).trace = errorLines w.trace ++ [line]) ∧
    hasForm "exportToImage"
      "Trade::AbstractImageConverter::exportToImage(): feature not supported" = true ∧
    hasForm "exportToImage"
      "Trade::AbstractImageConverter::exportToImage(): feature advertised but not implemented"
      = true ∧
    hasForm "exportToData"
      "Trade::AbstractImageConverter::exportToData(): feature not supported" = true ∧
    hasForm "exportToData"
      "Trade::AbstractImageConverter::exportToData(): feature advertised but not implemented"
      = true ∧
    hasForm "exportToFile"
      "Trade::AbstractImageConverter::exportToFile(): not implemented" = true ∧
    hasForm "exportToFile"
      ("Trade::AbstractImageConverter::exportToFile(): cannot write to file " ++ filename)
      = true := by
  refine ⟨?_, ?_, ?_, ?_, ?_, ?_, ?_, ?_, ?_, ?_, ?_, ?_,
    by decide, by decide, by decide, by decide, by decide, ?_⟩
  · intro h
    simp [exportToImage, h]
  · intro h hd
    simp [exportToImage, doExportToImage, h, hd]
  · intro f h hf
    have e : exportToImage F p image w = runHook Hook.doExportToImage (f image) w := by
      simp [exportToImage, doExportToImage, h, hf]
    rw [e]
    exact ⟨rfl, runHook_ownLines _ _ _, runHook_errorLines _ _ _⟩
  · intro h
    simp [exportToData, h]
  · intro h hd
    simp [exportToData, doExportToData, h, hd]
  · intro f h hf
    have e : exportToData F p image w = runHook Hook.doExportToData (f image) w := by
      simp [exportToData, doExportToData, h, hf]
    rw [e]
    exact ⟨rfl, runHook_ownLines _ _ _, runHook_errorLines _ _ _⟩
  · intro hdef h
    simp [exportToFile, doExportToFile, hdef, h]
  · intro hdef h hd
    simp [exportToFile, doExportToFile, doExportToData, hdef, h, hd]
  · intro f hdef h hf hr
    have e : exportToFile F p image filename w =
        (false, (runHook Hook.doExportToData (f image) w).2) := by
      simp [exportToFile, doExportToFile, doExportToData, hdef, h, hf, runHook, hr]
    rw [e]
    exact ⟨rfl, runHook_ownLines _ _ _, runHook_errorLines _ _ _⟩
  · intro f data hdef h hf hr hwrite
    have hd : (exportToData F p image w).1 = some data := by
      simp [exportToData, doExportToData, h, hf, runHook, hr]
    have hx : exportToData F p image w = runHook Hook.doExportToData (f image) w := by
      simp [exportToData, doExportToData, h, hf]
    have hw : (Directory.write (exportToData F p image w).2.fs filename data).1 = false := by
      rw [hx]; exact hwrite
    have key := exportToFile_default F p image filename w h hdef
    rw [hx] at key
    simp only [runHook, hr] at key
    rcases hy : Directory.write (f image w.fs).fs filename data with ⟨ok, fs2⟩
    rw [hy] at key hwrite
    simp only at hwrite
    subst hwrite
    simp only at key
    rw [key]
    simp [emit, runHook, ownLines_append, ownLines, ownLines_pluginError, errorLines_append,
      errorLines, errorLines_pluginError, String.append_assoc]
  · intro f data hdef h hf hr hwrite
    have hx : exportToData F p image w = runHook Hook.doExportToData (f image) w := by
      simp [exportToData, doExportToData, h, hf]
    have key := exportToFile_default F p image filename w h hdef
    rw [hx] at key
    simp only [runHook, hr] at key
    rcases hy : Directory.write (f image w.fs).fs filename data with ⟨ok, fs2⟩
    rw [hy] at key hwrite
    simp only at hwrite
    subst hwrite
    simp only at key
    rw [key]
  · intro line
    simp [emit, ownLines_append, ownLines, errorLines_append, errorLines]
  · have h := hasForm_of_message "exportToFile" ("cannot write to file " ++ filename)
    simpa [String.append_assoc] using h

/-- The amended claim C5 at each cause of failure: a plugin without
capabilities (all three operations), a plugin that advertises both capabilities
and overrides nothing (all three operations; `exportToFile` prints the
`exportToData` line), a plugin whose overriding data hook returns empty without
printing, and a plugin whose encode succeeds while `out.bin` cannot be
written. -/
theorem failure_diagnostics_witness :
    exportToImage exampleFeature barePlugin () emptyWorld = (none, emit emptyWorld
      "Trade::AbstractImageConverter::exportToImage(): feature not supported") ∧
    exportToData exampleFeature barePlugin () emptyWorld = (none, emit emptyWorld
      "Trade::AbstractImageConverter::exportToData(): feature not supported") ∧
    exportToFile exampleFeature barePlugin () "out.bin" emptyWorld = (false, emit emptyWorld
      "Trade::AbstractImageConverter::exportToFile(): not implemented") ∧
    exportToImage exampleFeature advertisingPlugin () emptyWorld = (none, emit emptyWorld
      "Trade::AbstractImageConverter::exportToImage(): feature advertised but not implemented") ∧
    exportToData exampleFeature advertisingPlugin () emptyWorld = (none, emit emptyWorld
      "Trade::AbstractImageConverter::exportToData(): feature advertised but not implemented") ∧
    exportToFile exampleFeature advertisingPlugin () "out.bin" emptyWorld = (false,
      emit emptyWorld
      "Trade::AbstractImageConverter::exportToData(): feature advertised but not implemented") ∧
    errorLines (exportToFile exampleFeature silentPlugin () "out.bin" emptyWorld).2.trace =
      errorLines emptyWorld.trace ++ [] ∧
    ownLines (exportToFile exampleFeature silentPlugin () "out.bin" emptyWorld).2.trace =
      ownLines emptyWorld.trace ∧
    (exportToFile exampleFeature dataPlugin () "out.bin" readOnlyWorld).1 = false ∧
    ownLines (exportToFile exampleFeature dataPlugin () "out.bin" readOnlyWorld).2.trace =
      ownLines readOnlyWorld.trace ++
      ["Trade::AbstractImageConverter::exportToFile(): cannot write to file " ++ "out.bin"] ∧
    (exportToFile exampleFeature dataPlugin () "out.bin" emptyWorld).1 = true :=
  ⟨(failure_diagnostics exampleFeature barePlugin () "out.bin" emptyWorld).1 (by decide),
   (failure_diagnostics exampleFeature barePlugin () "out.bin" emptyWorld).2.2.2.1 (by decide),
   (failure_diagnostics exampleFeature barePlugin () "out.bin" emptyWorld).2.2.2.2.2.2.1
      rfl (by decide),
   (failure_diagnostics exampleFeature advertisingPlugin () "out.bin" emptyWorld).2.1
      (by decide) rfl,
   (failure_diagnostics exampleFeature advertisingPlugin () "out.bin" emptyWorld).2.2.2.2.1
      (by decide) rfl,
   (failure_diagnostics exampleFeature advertisingPlugin () "out.bin" emptyWorld).2.2.2.2.2.2.2.1
      rfl (by decide) rfl,
   ((failure_diagnostics exampleFeature silentPlugin () "out.bin"
      emptyWorld).2.2.2.2.2.2.2.2.1 _ rfl (by decide) rfl rfl).2.2,
   ((failure_diagnostics exampleFeature silentPlugin () "out.bin"
      emptyWorld).2.2.2.2.2.2.2.2.1 _ rfl (by decide) rfl rfl).2.1,
   ((failure_diagnostics exampleFeature dataPlugin () "out.bin"
      readOnlyWorld).2.2.2.2.2.2.2.2.2.1 _ [137, 80] rfl (by decide) rfl rfl (by decide)).1,
   ((failure_diagnostics exampleFeature dataPlugin () "out.bin"
      readOnlyWorld).2.2.2.2.2.2.2.2.2.1 _ [137, 80] rfl (by decide) rfl rfl
      (by decide)).2.2.1,
   (failure_diagnostics exampleFeature dataPlugin () "out.bin"
      emptyWorld).2.2.2.2.2.2.2.2.2.2.1 _ [137, 80] rfl (by decide) rfl rfl (by decide)⟩

end Trade

/-! ## The size check of `WavImporter::openData` and the cube tables -/

namespace Audio

/-- Claim C7: for every buffer of fewer than 44 bytes, whatever its contents,
`openData` returns `false`, leaves nothing open and prints exactly the one line
`Audio::WavImporter::openData(): the file is too short: n bytes`, `n` being the
length of the buffer in decimal. -/
theorem openData_too_short (importer : WavImporter) (data : List Nat)
    (h : data.length < 44) :
    importer.openData data =
      (false,
        { opened := none
          err := importer.err ++
            ["Audio::WavImporter::openData(): the file is too short: "
              ++ toString data.length ++ " bytes"] }) := by
  have h2 : data.length < headerSize := h
  simp [WavImporter.openData, h2, WavImporter.fail, Error.line, String.append_assoc]

/-- Claim C7 at a 43-byte buffer, the case of `WavImporterTest::wrongSize`. -/
theorem openData_too_short_witness :
    (WavImporter.mk none []).openData (List.replicate 43 0) =
      (false,
        { opened := none
          err := ["Audio::WavImporter::openData(): the file is too short: 43 bytes"] }) :=
  (openData_too_short (WavImporter.mk none []) (List.replicate 43 0) (by decide)).trans
    (by decide)

end Audio

namespace Primitives

/-- Claim C8: `Cube::solid()` has 36 indices, 24 positions and 24 normals, every
index is below 24, and for each of the 12 triangles the cross product
`(p_b - p_a) x (p_c - p_a)` is a positive multiple of the normal stored at each
of its three vertices; the normals have unit length and point away from the
centre of the cube. -/
theorem solid_consistently_oriented :
    Cube.solid.primitive = MeshPrimitive.Triangles ∧
    Cube.solid.indices.length = 36 ∧
    (Cube.solid.positions 0).length = 24 ∧
    (Cube.solid.normals 0).length = 24 ∧
    (∀ k : Fin 36, index Cube.solid k.val < 24) ∧
    (∀ t : Fin 12, ∀ j : Fin 3, ∃ k : Int, 0 < k ∧
      triangleCross Cube.solid t.val =
        (normal Cube.solid (index Cube.solid (3 * t.val + j.val))).scale k) ∧
    (∀ i : Fin 24, (normal Cube.solid i.val).dot (normal Cube.solid i.val) = 1 ∧
      0 < (normal Cube.solid i.val).dot (vertex Cube.solid i.val)) := by
  refine ⟨rfl, rfl, rfl, rfl, by decide, ?_, by decide⟩
  intro t j
  refine ⟨4, by decide, ?_⟩
  revert t j
  decide

/-- Claim C9: the 8 positions of `Cube::wireframe()` are pairwise distinct and
are the 8 corners of `[-1, 1]^3`, its 24 indices are below 8, each of the 12
segments joins two corners that differ in exactly one coordinate, and no two
of the 12 segments join the same pair of corners. -/
theorem wireframe_twelve_edges :
    Cube.wireframe.primitive = MeshPrimitive.Lines ∧
    (Cube.wireframe.positions 0).length = 8 ∧
    (Cube.wireframe.positions 0).Nodup ∧
    (Cube.wireframe.positions 0).Perm cubeCorners ∧
    Cube.wireframe.indices.length = 24 ∧
    (∀ k : Fin 24, index Cube.wireframe k.val < 8) ∧
    (∀ s : Fin 12, differingCoordinates (vertex Cube.wireframe (segment Cube.wireframe s.val).1)
      (vertex Cube.wireframe (segment Cube.wireframe s.val).2) = 1) ∧
    (∀ s t : Fin 12, s = t ∨
      sameSegment (segment Cube.wireframe s.val) (segment Cube.wireframe t.val) = false) := by
  refine ⟨rfl, rfl, by decide, by decide, rfl, by decide, by decide, by decide⟩

set_option maxHeartbeats 1600000 in
/-- Every point of every face of the cube lies in one of the strip triangles of
that face: the point `q / s` with `s > 0`, on the face plane and within
`[-1, 1]` in the other coordinates. -/
theorem solidStrip_face_cover (axis : Fin 3) (positive : Bool) (s : Int) (q : Vector3)
    (_hs : 0 < s) (hq : onFace axis.val positive s q) :
    ∃ i : Fin 12, stripTriangleInFace Cube.solidStrip axis.val positive i.val = true ∧
      inTriangle (vertex Cube.solidStrip i.val) (vertex Cube.solidStrip (i.val + 1))
        (vertex Cube.solidStrip (i.val + 2)) s q := by
  obtain ⟨qx, qy, qz⟩ := q
  by_contra hcon
  push_neg at hcon
  fin_cases axis <;> cases positive <;>
    simp [onFace, Vector3.component, faceSign] at hq <;>
    obtain ⟨h0, ⟨h1, h2⟩, ⟨h3, h4⟩, h5, h6⟩ := hq
  · have a := hcon ⟨3, by decide⟩ (by decide)
    have b := hcon ⟨4, by decide⟩ (by decide)
    simp [inTriangle, edgeSide, faceCross, Vector3.sub, Vector3.cross, Vector3.dot,
      Vector3.scale, vertex, Trade.MeshData3D.positions, Cube.solidStrip] at a b
    omega
  · have a := hcon ⟨7, by decide⟩ (by decide)
    have b := hcon ⟨8, by decide⟩ (by decide)
    simp [inTriangle, edgeSide, faceCross, Vector3.sub, Vector3.cross, Vector3.dot,
      Vector3.scale, vertex, Trade.MeshData3D.positions, Cube.solidStrip] at a b
    omega
  · have a := hcon ⟨2, by decide⟩ (by decide)
    have b := hcon ⟨9, by decide⟩ (by decide)
    simp [inTriangle, edgeSide, faceCross, Vector3.sub, Vector3.cross, Vector3.dot,
      Vector3.scale, vertex, Trade.MeshData3D.positions, Cube.solidStrip] at a b
    omega
  · have a := hcon ⟨5, by decide⟩ (by decide)
    have b := hcon ⟨6, by decide⟩ (by decide)
    simp [inTriangle, edgeSide, faceCross, Vector3.sub, Vector3.cross, Vector3.dot,
      Vector3.scale, vertex, Trade.MeshData3D.positions, Cube.solidStrip] at a b
    omega
  · have a := hcon ⟨10, by decide⟩ (by decide)
    have b := hcon ⟨11, by decide⟩ (by decide)
    simp [inTriangle, edgeSide, faceCross, Vector3.sub, Vector3.cross, Vector3.dot,
      Vector3.scale, vertex, Trade.MeshData3D.positions, Cube.solidStrip] at a b
    omega
  · have a := hcon ⟨0, by decide⟩ (by decide)
    have b := hcon ⟨1, by decide⟩ (by decide)
    simp [inTriangle, edgeSide, faceCross, Vector3.sub, Vector3.cross, Vector3.dot,
      Vector3.scale, vertex, Trade.MeshData3D.positions, Cube.solidStrip] at a b
    omega

/-- Claim C10: `Cube::solidStrip()` is a strip of 14 positions without indices;
each of its 12 triangles is non-degenerate, lies in the plane of one face of
the cube and, with the first two vertices swapped for odd triangles, has a
cross product that is 4 times the outward unit normal of that face; each of
the six faces holds exactly two triangles, whose vertices are the four corners
of the face; the two triangles of a face have exactly two vertices in common,
the ends of a diagonal of the face, so they are its two halves; and every
point of every face lies in one of the two triangles of that face, so the
strip covers the whole cube. -/
theorem solidStrip_covers_cube :
    Cube.solidStrip.primitive = MeshPrimitive.TriangleStrip ∧
    Cube.solidStrip.indices = [] ∧
    (Cube.solidStrip.positions 0).length = 14 ∧
    (∀ i : Fin 12, faceCross (vertex Cube.solidStrip i.val) (vertex Cube.solidStrip (i.val + 1))
      (vertex Cube.solidStrip (i.val + 2)) ≠ ⟨0, 0, 0⟩) ∧
    (∀ i : Fin 12, ∃ axis : Fin 3, ∃ positive : Bool,
      stripTriangleInFace Cube.solidStrip axis.val positive i.val = true ∧
      stripCross Cube.solidStrip i.val = (faceNormal axis.val positive).scale 4 ∧
      0 < (stripCross Cube.solidStrip i.val).dot (vertex Cube.solidStrip i.val)) ∧
    (∀ axis : Fin 3, ∀ positive : Bool,
      (stripTrianglesInFace Cube.solidStrip 12 axis.val positive).length = 2 ∧
      (stripFaceVertices Cube.solidStrip 12 axis.val positive).Perm
        (cubeCorners.filter (inFace axis.val positive)) ∧
      (cubeCorners.filter (inFace axis.val positive)).length = 4) ∧
    (∀ axis : Fin 3, ∀ positive : Bool, ∃ i j : Fin 12,
      stripTrianglesInFace Cube.solidStrip 12 axis.val positive = [i.val, j.val] ∧
      (sharedVertices Cube.solidStrip i.val j.val).length = 2 ∧
      differingCoordinates ((sharedVertices Cube.solidStrip i.val j.val).getD 0 ⟨0, 0, 0⟩)
        ((sharedVertices Cube.solidStrip i.val j.val).getD 1 ⟨0, 0, 0⟩) = 2) ∧
    (∀ axis : Fin 3, ∀ positive : Bool, ∀ s : Int, ∀ q : Vector3,
      0 < s → onFace axis.val positive s q →
      ∃ i : Fin 12, stripTriangleInFace Cube.solidStrip axis.val positive i.val = true ∧
        inTriangle (vertex Cube.solidStrip i.val) (vertex Cube.solidStrip (i.val + 1))
          (vertex Cube.solidStrip (i.val + 2)) s q) := by
  refine ⟨rfl, rfl, rfl, by decide, by decide, by decide, by decide, ?_⟩
  intro axis positive s q hs hq
  exact solidStrip_face_cover axis positive s q hs hq

/-- Claim C10 at the point `(1/2, -1, -1/2)` of the `-Y` face: it lies in one of
the two strip triangles of that face. -/
theorem solidStrip_covers_cube_witness :
    ∃ i : Fin 12, stripTriangleInFace Cube.solidStrip 1 false i.val = true ∧
      inTriangle (vertex Cube.solidStrip i.val) (vertex Cube.solidStrip (i.val + 1))
        (vertex Cube.solidStrip (i.val + 2)) 2 ⟨1, -2, -1⟩ :=
  solidStrip_covers_cube.2.2.2.2.2.2.2 ⟨1, by decide⟩ false 2 ⟨1, -2, -1⟩ (by decide)
    ⟨by decide, ⟨by decide, by decide⟩, ⟨by decide, by decide⟩, by decide, by decide⟩

end Primitives

end Magnum
